import Mathlib

/-!
Verification of the note lifecycle engine of `src/notesRoute.js`, the tag
assignment subsystem of `src/labelsRoute.js`, the encryption codec of
`src/encryption.js`, and the persisted schema of `src/notes-migration.sql`
(the `notes` table and its `update_notes_updated_at` trigger).

Modelling conventions: timestamps are naturals (`new Date().toISOString()`
becomes a `now : Nat` parameter, one per request); nullable columns are
`Option`; the random `generateShareId()` output and the fresh row id are
parameters of the operations; JavaScript string truthiness (`""` is falsy)
is modelled by explicit emptiness tests.
-/

namespace MockNotes

/-- A row of the `notes` table (`src/notes-migration.sql` lines 2-17).
Ciphertext is modelled as a list of naturals (the source stores the
base64 string produced by the cipher). -/
structure Note where
  id : Nat
  user_id : Nat
  title : String
  content : Option String
  encrypted_content : Option (List Nat)
  is_encrypted : Bool
  is_draft : Bool
  is_public : Bool
  public_share_id : Option String
  tags : List String
  created_at : Nat
  updated_at : Nat
  published_at : Option Nat
  auto_saved_at : Option Nat
deriving DecidableEq, Repr

/-- Key stream of the symmetric cipher: entry `i % key.length` of the key. -/
def keyStream (key : List Nat) (i : Nat) : Nat :=
  key.getD (i % key.length) 0

/-- Modelled from the spec: `encryptText` in `src/encryption.js` delegates to
the external CryptoJS AES passphrase scheme, which is not part of this
repository; per §4.1 (EncryptionCodec) it is a keyed symmetric transform,
modelled here as an invertible key stream addition over code points,
starting at stream position `i`. -/
def encChars (key : List Nat) : Nat → List Char → List Nat
  | _, [] => []
  | i, c :: cs => (c.toNat + keyStream key i) :: encChars key (i + 1) cs

/-- Modelled from the spec: inverse direction of the CryptoJS AES passphrase
scheme used by `decryptText` in `src/encryption.js`; subtracts the key
stream, starting at position `i`. -/
def decChars (key : List Nat) : Nat → List Nat → List Char
  | _, [] => []
  | i, n :: ns => Char.ofNat (n - keyStream key i) :: decChars key (i + 1) ns

/-- `encryptText` of `src/encryption.js` (lines 9-17), with the process-wide
`ENCRYPTION_KEY` made an explicit parameter. -/
def encryptText (key : List Nat) (text : String) : List Nat :=
  encChars key 0 text.data

/-- `decryptText` of `src/encryption.js` (lines 20-29), with the key explicit. -/
def decryptText (key : List Nat) (ct : List Nat) : String :=
  String.mk (decChars key 0 ct)

/-- Line 6 of `src/encryption.js`:
`process.env.ENCRYPTION_KEY || 'default-encryption-key-change-in-production'`.
`env` is the `ENCRYPTION_KEY` environment variable, `none` when unset; under
`||` the empty string is falsy as well. -/
def resolveEncryptionKey (env : Option String) : String :=
  match env with
  | none => "default-encryption-key-change-in-production"
  | some s => if s.isEmpty then "default-encryption-key-change-in-production" else s

/-- Body accepted by `createNoteSchema` (`src/notesRoute.js` lines 10-17);
`none` is an absent optional field. -/
structure CreateReq where
  title : String
  content : Option String := none
  tags : Option (List String) := none
  is_encrypted : Option Bool := none
  is_public : Option Bool := none
  is_draft : Option Bool := none
deriving DecidableEq, Repr

/-- Body accepted by `updateNoteSchema` (`src/notesRoute.js` lines 19-26);
`none` is an absent field, matching the `hasOwnProperty` test in the route. -/
structure UpdateReq where
  title : Option String := none
  content : Option String := none
  tags : Option (List String) := none
  is_encrypted : Option Bool := none
  is_public : Option Bool := none
  is_draft : Option Bool := none
deriving DecidableEq, Repr

/-- Body of the autosave route (`src/notesRoute.js` line 381): plain
destructuring of `content` and `title`, checked against `undefined`. -/
structure AutosaveReq where
  content : Option String := none
  title : Option String := none
deriving DecidableEq, Repr

/-- JavaScript truthiness of a nullable string column: `null` and `""` are
falsy (used by `!existingNote.public_share_id` on line 331). -/
def optStrFalsy : Option String → Bool
  | none => true
  | some s => s.isEmpty

/-- `router.post("/")` of `src/notesRoute.js` (lines 230-292): the row
inserted for a create request. `freshId`, `shareId` and `now` stand for the
generated row id, `generateShareId()` and `new Date().toISOString()`.
The guard `is_encrypted && content` (line 247) is JS-truthy, hence the
emptiness test on the content string. -/
def createNote (key : List Nat) (userId freshId : Nat) (shareId : String)
    (now : Nat) (req : CreateReq) : Note :=
  let content := req.content.getD ""
  let is_encrypted := req.is_encrypted.getD false
  let is_public := req.is_public.getD false
  let is_draft := req.is_draft.getD true
  let base : Note :=
    { id := freshId
      user_id := userId
      title := req.title
      content := none
      encrypted_content := none
      is_encrypted := is_encrypted
      is_draft := is_draft
      is_public := is_public
      public_share_id := none
      tags := req.tags.getD []
      created_at := now
      updated_at := now
      published_at := none
      auto_saved_at := none }
  let n1 :=
    if is_encrypted && !content.isEmpty then
      { base with encrypted_content := some (encryptText key content), content := none }
    else
      { base with content := some content }
  let n2 :=
    if is_public then
      { n1 with public_share_id := some shareId, published_at := some now }
    else n1
  if !is_draft then { n2 with published_at := some now } else n2

/-- `router.put("/:id")` of `src/notesRoute.js` (lines 295-375): the persisted
row after updating `existing` with a validated request body. Absent fields
keep the stored column (the route only places present fields in
`updateData`). Line 321 (`shouldEncrypt && validatedData.content`) is
JS-truthy on the content string; line 331 tests `!existingNote.public_share_id`. -/
def updateNote (key : List Nat) (existing : Note) (shareId : String)
    (now : Nat) (req : UpdateReq) : Note :=
  let n1 :=
    { existing with
      title := req.title.getD existing.title
      tags := req.tags.getD existing.tags
      is_encrypted := req.is_encrypted.getD existing.is_encrypted
      is_public := req.is_public.getD existing.is_public
      is_draft := req.is_draft.getD existing.is_draft
      updated_at := now }
  let n2 :=
    match req.content with
    | none => n1
    | some c =>
      let shouldEncrypt := req.is_encrypted.getD existing.is_encrypted
      if shouldEncrypt && !c.isEmpty then
        { n1 with encrypted_content := some (encryptText key c), content := none }
      else
        { n1 with content := some c, encrypted_content := none }
  let n3 :=
    if req.is_public = some true ∧ optStrFalsy existing.public_share_id then
      { n2 with public_share_id := some shareId }
    else if req.is_public = some false then
      { n2 with public_share_id := none }
    else n2
  if req.is_draft = some false ∧ existing.is_draft = true then
    { n3 with published_at := some now }
  else n3

/-- `router.patch("/:id/autosave")` of `src/notesRoute.js` (lines 378-430):
the fields the route itself writes. Only `auto_saved_at`, optionally `title`,
and optionally the content pair are placed in `updateData`; the content is
encrypted or stored plain according to the stored `is_encrypted` flag. -/
def autosaveNote (key : List Nat) (existing : Note) (now : Nat)
    (req : AutosaveReq) : Note :=
  let n1 := { existing with auto_saved_at := some now }
  let n2 :=
    match req.title with
    | none => n1
    | some t => { n1 with title := t }
  match req.content with
  | none => n2
  | some c =>
    if existing.is_encrypted then
      { n2 with encrypted_content := some (encryptText key c), content := none }
    else
      { n2 with content := some c }

/-- Trigger `update_notes_updated_at` of `src/notes-migration.sql`
(lines 26-39): BEFORE UPDATE on `notes`, every updated row gets
`updated_at = NOW()`. -/
def applyUpdateTrigger (now : Nat) (n : Note) : Note :=
  { n with updated_at := now }

/-- Persisted row after the update route, trigger included. -/
def updateNoteDb (key : List Nat) (existing : Note) (shareId : String)
    (now : Nat) (req : UpdateReq) : Note :=
  applyUpdateTrigger now (updateNote key existing shareId now req)

/-- Persisted row after the autosave route, trigger included. -/
def autosaveNoteDb (key : List Nat) (existing : Note) (now : Nat)
    (req : AutosaveReq) : Note :=
  applyUpdateTrigger now (autosaveNote key existing now req)

/-- Owner-scoped lookup `.eq("id", id).eq("user_id", req.user.id).single()`
shared by the update, autosave, delete and assignment routes. -/
def lookupNote (st : List Note) (userId id : Nat) : Option Note :=
  st.find? fun n => n.id == id && n.user_id == userId

/-- Errors surfaced by the routes that the claims mention. -/
inductive ApiError where
  | notFound
  | badRequest
deriving DecidableEq, Repr

/-- Store-level effect of the autosave route: 404 when the owner-scoped
lookup misses, otherwise the matching row is rewritten (trigger included). -/
def autosaveRoute (key : List Nat) (st : List Note) (userId id now : Nat)
    (req : AutosaveReq) : Except ApiError (List Note) :=
  match lookupNote st userId id with
  | none => .error .notFound
  | some _ => .ok (st.map fun m =>
      if m.id == id && m.user_id == userId then autosaveNoteDb key m now req else m)

/-- One mutating request against the notes store of a single owner. -/
inductive Op where
  | create (freshId : Nat) (shareId : String) (now : Nat) (req : CreateReq)
  | update (id : Nat) (shareId : String) (now : Nat) (req : UpdateReq)
  | autosave (id : Nat) (now : Nat) (req : AutosaveReq)
deriving DecidableEq, Repr

/-- Effect of one request on the stored rows. A missed lookup leaves the
store unchanged (the route answers 404 and writes nothing). -/
def applyOp (key : List Nat) (userId : Nat) (st : List Note) : Op → List Note
  | .create freshId shareId now req =>
      createNote key userId freshId shareId now req :: st
  | .update id shareId now req =>
      match lookupNote st userId id with
      | none => st
      | some _ => st.map fun m =>
          if m.id == id && m.user_id == userId then updateNoteDb key m shareId now req else m
  | .autosave id now req =>
      match lookupNote st userId id with
      | none => st
      | some _ => st.map fun m =>
          if m.id == id && m.user_id == userId then autosaveNoteDb key m now req else m

/-- Notes reachable from an empty store by a sequence of requests. -/
def runOps (key : List Nat) (userId : Nat) (ops : List Op) : List Note :=
  ops.foldl (applyOp key userId) []

/-- Replacement step of `router.post("/notes/:noteId/labels")` in
`src/labelsRoute.js` (lines 306-327): delete every row of the note, then
insert one row `(note_id, tag_id)` per element of the request array. The
categories route (lines 337-386) is line-for-line identical modulo the
table and field names, so one definition covers both kinds. -/
def assignTagRows (rows : List (Nat × Nat)) (noteId : Nat)
    (tagIds : List Nat) : List (Nat × Nat) :=
  (rows.filter fun r => r.1 != noteId) ++ tagIds.map fun t => (noteId, t)

/-- Full assignment route (lines 285-334): owner-scoped note lookup, 404 on
miss, otherwise replace the note's assignment rows. -/
def assignTagsRoute (st : List Note) (rows : List (Nat × Nat))
    (userId noteId : Nat) (tagIds : List Nat) :
    Except ApiError (List (Nat × Nat)) :=
  match lookupNote st userId noteId with
  | none => .error .notFound
  | some _ => .ok (assignTagRows rows noteId tagIds)

/-- Visibility filter values accepted by the list route (lines 76-82). -/
inductive Visibility where
  | pub
  | priv
  | enc
deriving DecidableEq, Repr

/-- Query parameters of `router.get("/")` (lines 31-45) that the verified
claims touch. `draft_only` is `some b` exactly for the literal query strings
`'true'`/`'false'`; `none` stands for an absent or other value. For `search`,
`tag`, `date_from` and `date_to` the route guards with JS truthiness, so an
absent parameter and other falsy values are `none` (the empty-string case is
additionally modelled where a string value is kept). -/
structure ListParams where
  page : Nat := 1
  limit : Nat := 20
  search : Option String := none
  tag : Option String := none
  draft_only : Option Bool := none
  visibility : Option Visibility := none
  date_from : Option Nat := none
  date_to : Option Nat := none
deriving DecidableEq, Repr

/-- Contiguous-sublist test used to model SQL `%needle%` patterns. -/
def hasSubList (needle : List Char) : List Char → Bool
  | [] => needle.isEmpty
  | c :: cs => List.isPrefixOf needle (c :: cs) || hasSubList needle cs

/-- `title.ilike.%s%` / `content.ilike.%s%`: case-insensitive substring. -/
def ilikeContains (hay pat : String) : Bool :=
  hasSubList pat.toLower.data hay.toLower.data

/-- Draft filter (lines 69-73 and 119-123). -/
def draftFilter (p : ListParams) (n : Note) : Bool :=
  match p.draft_only with
  | some b => n.is_draft == b
  | none => true

/-- Visibility filter (lines 76-82 and 124-130). -/
def visibilityFilter (p : ListParams) (n : Note) : Bool :=
  match p.visibility with
  | some .pub => n.is_public
  | some .priv => !n.is_public
  | some .enc => n.is_encrypted
  | none => true

/-- Search filter (lines 85-87 and 131-133): title or content contains the
needle, case-insensitively; a null content column never matches. -/
def searchFilter (p : ListParams) (n : Note) : Bool :=
  match p.search with
  | none => true
  | some s =>
    if s.isEmpty then true
    else
      ilikeContains n.title s ||
        (match n.content with
         | none => false
         | some c => ilikeContains c s)

/-- Tag filter (lines 90-92 and 134-136): array containment. -/
def tagFilter (p : ListParams) (n : Note) : Bool :=
  match p.tag with
  | none => true
  | some t => if t.isEmpty then true else n.tags.contains t

/-- Date range filter (lines 95-100): `created_at` between the bounds. -/
def dateFilter (p : ListParams) (n : Note) : Bool :=
  (match p.date_from with
   | none => true
   | some d => decide (d ≤ n.created_at)) &&
  (match p.date_to with
   | none => true
   | some d => decide (n.created_at ≤ d))

/-- Predicate of the count query (lines 113-136): owner, draft, visibility,
search and tag filters; the route applies no date filter to this query. -/
def matchesCountQuery (userId : Nat) (p : ListParams) (n : Note) : Bool :=
  (n.user_id == userId) && draftFilter p n && visibilityFilter p n &&
    searchFilter p n && tagFilter p n

/-- Predicate of the page query (lines 50-100): the same five filters plus
the date range. -/
def matchesMainQuery (userId : Nat) (p : ListParams) (n : Note) : Bool :=
  matchesCountQuery userId p n && dateFilter p n

/-- Line 48: `Math.min(parseInt(limit), 100)`. -/
def parsedLimit (limit : Nat) : Nat := min limit 100

/-- Line 47: `(page - 1) * limit`, over the raw requested limit. -/
def listOffset (page limit : Nat) : Nat := (page - 1) * limit

/-- Pagination block of the list response (lines 167-175). -/
structure Pagination where
  page : Nat
  limit : Nat
  total : Nat
  totalPages : Nat
  hasNext : Bool
  hasPrev : Bool
deriving DecidableEq, Repr

/-- List response: page rows plus pagination metadata. -/
structure ListResponse where
  rows : List Note
  pagination : Pagination
deriving DecidableEq, Repr

/-- `router.get("/")` of `src/notesRoute.js` (lines 29-193): page rows via
`range(offset, offset + parsedLimit - 1)` over the filtered rows, and the
pagination block computed from the count query. Row ordering is kept as
stored: the route's sort (lines 55-66) is not modelled, and every property
proved below is order-independent. -/
def listNotes (st : List Note) (userId : Nat) (p : ListParams) : ListResponse :=
  let matched := st.filter (matchesMainQuery userId p)
  let total := (st.filter (matchesCountQuery userId p)).length
  let pl := parsedLimit p.limit
  { rows := (matched.drop (listOffset p.page p.limit)).take pl
    pagination :=
      { page := p.page
        limit := pl
        total := total
        totalPages := (total + pl - 1) / pl
        hasNext := decide (p.page * pl < total)
        hasPrev := decide (1 < p.page) } }

/-! ### Sample data used to instantiate the theorems on concrete inputs -/

/-- A sample persisted plain note. -/
def demoNote : Note :=
  { id := 1
    user_id := 0
    title := "demo"
    content := some "hello"
    encrypted_content := none
    is_encrypted := false
    is_draft := true
    is_public := false
    public_share_id := none
    tags := []
    created_at := 0
    updated_at := 0
    published_at := none
    auto_saved_at := none }

/-- A sample persisted encrypted note. -/
def demoEncNote : Note :=
  { demoNote with
    id := 2
    is_encrypted := true
    content := none
    encrypted_content := some (encryptText [7] "hello") }

/-! ### Helper lemmas: field-level descriptions of the three operations -/

/-- Field-level description of the row built by the create route. -/
theorem createNote_proj (key : List Nat) (userId freshId : Nat)
    (shareId : String) (now : Nat) (req : CreateReq) :
    (createNote key userId freshId shareId now req).id = freshId ∧
    (createNote key userId freshId shareId now req).user_id = userId ∧
    (createNote key userId freshId shareId now req).title = req.title ∧
    (createNote key userId freshId shareId now req).tags = req.tags.getD [] ∧
    (createNote key userId freshId shareId now req).created_at = now ∧
    (createNote key userId freshId shareId now req).updated_at = now ∧
    (createNote key userId freshId shareId now req).auto_saved_at = none ∧
    (createNote key userId freshId shareId now req).is_encrypted = req.is_encrypted.getD false ∧
    (createNote key userId freshId shareId now req).is_public = req.is_public.getD false ∧
    (createNote key userId freshId shareId now req).is_draft = req.is_draft.getD true ∧
    (createNote key userId freshId shareId now req).content =
      (if req.is_encrypted.getD false && !(req.content.getD "").isEmpty then none
       else some (req.content.getD "")) ∧
    (createNote key userId freshId shareId now req).encrypted_content =
      (if req.is_encrypted.getD false && !(req.content.getD "").isEmpty then
        some (encryptText key (req.content.getD "")) else none) ∧
    (createNote key userId freshId shareId now req).public_share_id =
      (if req.is_public.getD false then some shareId else none) ∧
    (createNote key userId freshId shareId now req).published_at =
      (if req.is_public.getD false = true ∨ req.is_draft.getD true = false then some now
       else none) := by
  simp only [createNote]
  split_ifs <;> simp_all

/-- Field-level description of the row written by the update route (before
the table trigger). -/
theorem updateNote_proj (key : List Nat) (existing : Note) (shareId : String)
    (now : Nat) (req : UpdateReq) :
    (updateNote key existing shareId now req).id = existing.id ∧
    (updateNote key existing shareId now req).user_id = existing.user_id ∧
    (updateNote key existing shareId now req).title = req.title.getD existing.title ∧
    (updateNote key existing shareId now req).tags = req.tags.getD existing.tags ∧
    (updateNote key existing shareId now req).created_at = existing.created_at ∧
    (updateNote key existing shareId now req).updated_at = now ∧
    (updateNote key existing shareId now req).auto_saved_at = existing.auto_saved_at ∧
    (updateNote key existing shareId now req).is_encrypted =
      req.is_encrypted.getD existing.is_encrypted ∧
    (updateNote key existing shareId now req).is_public =
      req.is_public.getD existing.is_public ∧
    (updateNote key existing shareId now req).is_draft =
      req.is_draft.getD existing.is_draft ∧
    (updateNote key existing shareId now req).content =
      (match req.content with
       | none => existing.content
       | some c =>
         if req.is_encrypted.getD existing.is_encrypted && !c.isEmpty then none
         else some c) ∧
    (updateNote key existing shareId now req).encrypted_content =
      (match req.content with
       | none => existing.encrypted_content
       | some c =>
         if req.is_encrypted.getD existing.is_encrypted && !c.isEmpty then
           some (encryptText key c)
         else none) ∧
    (updateNote key existing shareId now req).public_share_id =
      (if req.is_public = some true ∧ optStrFalsy existing.public_share_id then some shareId
       else if req.is_public = some false then none
       else existing.public_share_id) ∧
    (updateNote key existing shareId now req).published_at =
      (if req.is_draft = some false ∧ existing.is_draft = true then some now
       else existing.published_at) := by
  simp only [updateNote]
  cases hc : req.content <;> (repeat' split) <;> simp_all

/-- Field-level description of the row written by the autosave route (before
the table trigger). -/
theorem autosaveNote_proj (key : List Nat) (existing : Note) (now : Nat)
    (req : AutosaveReq) :
    (autosaveNote key existing now req).id = existing.id ∧
    (autosaveNote key existing now req).user_id = existing.user_id ∧
    (autosaveNote key existing now req).title = req.title.getD existing.title ∧
    (autosaveNote key existing now req).tags = existing.tags ∧
    (autosaveNote key existing now req).created_at = existing.created_at ∧
    (autosaveNote key existing now req).updated_at = existing.updated_at ∧
    (autosaveNote key existing now req).auto_saved_at = some now ∧
    (autosaveNote key existing now req).is_encrypted = existing.is_encrypted ∧
    (autosaveNote key existing now req).is_public = existing.is_public ∧
    (autosaveNote key existing now req).is_draft = existing.is_draft ∧
    (autosaveNote key existing now req).public_share_id = existing.public_share_id ∧
    (autosaveNote key existing now req).published_at = existing.published_at ∧
    (autosaveNote key existing now req).content =
      (match req.content with
       | none => existing.content
       | some c => if existing.is_encrypted then none else some c) ∧
    (autosaveNote key existing now req).encrypted_content =
      (match req.content with
       | none => existing.encrypted_content
       | some c =>
         if existing.is_encrypted then some (encryptText key c)
         else existing.encrypted_content) := by
  simp only [autosaveNote]
  cases ht : req.title <;> cases hc : req.content <;> split_ifs <;> simp_all

/-! ### C9: encryption round-trip -/

/-- Decryption inverts encryption position-wise. -/
theorem decChars_encChars (key : List Nat) (i : Nat) (cs : List Char) :
    decChars key i (encChars key i cs) = cs := by
  induction cs generalizing i with
  | nil => rfl
  | cons c cs ih => simp [encChars, decChars, Nat.add_sub_cancel, ih]

/-- C9: for every content string, including the empty string and multi-byte
text, decrypting the result of encrypting it with the same key returns the
original string. -/
theorem decryptText_encryptText (key : List Nat) (text : String) :
    decryptText key (encryptText key text) = text := by
  cases text with
  | mk data => simp [decryptText, encryptText, decChars_encChars]

/-! ### C10: absent encryption key -/

/-- C10: with the `ENCRYPTION_KEY` environment variable absent the program
does not fail fast; key resolution produces the built-in weak default key
and the codec operates with it. -/
theorem absent_key_resolves_to_default :
    resolveEncryptionKey none = "default-encryption-key-change-in-production" := rfl

/-! ### C8: pagination arithmetic -/

/-- C8 counterexample: at `page = 2`, `limit = 150` the skipped row count is
`150`, computed from the raw limit, while `(page − 1)` times the effective
(capped) limit is `100`. -/
theorem listOffset_uses_raw_limit :
    listOffset 2 150 = 150 ∧ parsedLimit 150 = 100 ∧
      listOffset 2 150 ≠ (2 - 1) * parsedLimit 150 := by decide

/-- C8 (amended): the effective page size is the requested limit capped at
100 and `page` is 1-based, but the rows skipped before the returned page
equal `(page − 1)` times the raw requested limit; this agrees with
`(page − 1)` times the effective limit exactly when the requested limit is
at most 100. -/
theorem list_pagination_offset (st : List Note) (userId : Nat) (p : ListParams) :
    (listNotes st userId p).pagination.limit = min p.limit 100 ∧
    (listNotes st userId p).rows =
      ((st.filter (matchesMainQuery userId p)).drop ((p.page - 1) * p.limit)).take
        (min p.limit 100) ∧
    (p.limit ≤ 100 →
      listOffset p.page p.limit = (p.page - 1) * parsedLimit p.limit) := by
  refine ⟨rfl, rfl, fun h => ?_⟩
  simp [listOffset, parsedLimit, Nat.min_eq_left h]

/-- Concrete instantiation of `list_pagination_offset` (default limit 20). -/
theorem list_pagination_offset_witness :
    (listNotes [demoNote] 0 {}).pagination.limit = min 20 100 ∧
    listOffset 1 20 = (1 - 1) * parsedLimit 20 :=
  ⟨(list_pagination_offset [demoNote] 0 {}).1,
   (list_pagination_offset [demoNote] 0 {}).2.2 (by decide)⟩

/-! ### C3: public creation stamps share id and published_at -/

/-- C3: a create request with `is_public = true` yields a note whose
`public_share_id` and `published_at` are non-null, for every value of the
`is_draft` flag in the request, including an explicit `is_draft = true`. -/
theorem create_public_stamps_share_and_published
    (key : List Nat) (userId freshId : Nat) (shareId : String) (now : Nat)
    (req : CreateReq) (h : req.is_public = some true) :
    (createNote key userId freshId shareId now req).public_share_id = some shareId ∧
    (createNote key userId freshId shareId now req).published_at = some now := by
  obtain ⟨-, -, -, -, -, -, -, -, -, -, -, -, hshare, hpub⟩ :=
    createNote_proj key userId freshId shareId now req
  rw [hshare, hpub, h]
  simp

/-- Concrete instantiation of `create_public_stamps_share_and_published`:
a public draft creation. -/
theorem create_public_stamps_share_and_published_witness :
    (createNote [7] 0 1 "abc123def456" 5
      { title := "A", is_public := some true, is_draft := some true }).public_share_id =
        some "abc123def456" ∧
    (createNote [7] 0 1 "abc123def456" 5
      { title := "A", is_public := some true, is_draft := some true }).published_at =
        some 5 :=
  create_public_stamps_share_and_published [7] 0 1 "abc123def456" 5
    { title := "A", is_public := some true, is_draft := some true } rfl

/-! ### C1: plaintext/ciphertext exclusivity -/

/-- Create request with encryption requested and the content left at its
default empty string. -/
def encEmptyCreateReq : CreateReq := { title := "A", is_encrypted := some true }

/-- C1 counterexample: creating a note with `is_encrypted = true` and the
default empty content stores the empty string in `content` and leaves
`encrypted_content` null, because line 247 tests JS truthiness of the
content string; so `is_encrypted = true` does not imply that `content` is
null and `encrypted_content` non-null. -/
theorem encrypted_create_with_empty_content_stores_plaintext :
    (createNote [] 0 1 "s" 0 encEmptyCreateReq).is_encrypted = true ∧
    (createNote [] 0 1 "s" 0 encEmptyCreateReq).content = some "" ∧
    (createNote [] 0 1 "s" 0 encEmptyCreateReq).encrypted_content = none := by
  decide

/-- Exactly one of the two content columns of a row is non-null. -/
def exclusiveContent (n : Note) : Prop :=
  n.content.isSome ↔ n.encrypted_content.isNone

/-- C1 (amended): after a create, exactly one of `content` and
`encrypted_content` is non-null, and the ciphertext side is the non-null one
exactly when `is_encrypted` is true and the supplied content is non-empty;
after an update that supplies content, the same holds with the effective
encryption flag (the request's `is_encrypted` when present, else the stored
flag); an update without content leaves both columns unchanged even when
`is_encrypted` changes; an autosave that supplies content clears `content`
and fills `encrypted_content` when the stored note is encrypted, and fills
`content` leaving `encrypted_content` untouched otherwise. -/
theorem content_ciphertext_exclusivity
    (key : List Nat) (userId freshId : Nat) (shareId : String) (now : Nat)
    (existing : Note) (creq : CreateReq) (ureq : UpdateReq) (areq : AutosaveReq) :
    (exclusiveContent (createNote key userId freshId shareId now creq) ∧
      ((createNote key userId freshId shareId now creq).encrypted_content ≠ none ↔
        creq.is_encrypted.getD false = true ∧ (creq.content.getD "").isEmpty = false)) ∧
    (∀ c, ureq.content = some c →
      exclusiveContent (updateNoteDb key existing shareId now ureq) ∧
      ((updateNoteDb key existing shareId now ureq).encrypted_content ≠ none ↔
        ureq.is_encrypted.getD existing.is_encrypted = true ∧ c.isEmpty = false)) ∧
    (ureq.content = none →
      (updateNoteDb key existing shareId now ureq).content = existing.content ∧
      (updateNoteDb key existing shareId now ureq).encrypted_content =
        existing.encrypted_content) ∧
    (∀ c, areq.content = some c →
      if existing.is_encrypted then
        (autosaveNoteDb key existing now areq).content = none ∧
        (autosaveNoteDb key existing now areq).encrypted_content =
          some (encryptText key c)
      else
        (autosaveNoteDb key existing now areq).content = some c ∧
        (autosaveNoteDb key existing now areq).encrypted_content =
          existing.encrypted_content) := by
  obtain ⟨-, -, -, -, -, -, -, -, -, -, hcc, hce, -, -⟩ :=
    createNote_proj key userId freshId shareId now creq
  obtain ⟨-, -, -, -, -, -, -, -, -, -, huc, hue, -, -⟩ :=
    updateNote_proj key existing shareId now ureq
  obtain ⟨-, -, -, -, -, -, -, -, -, -, -, -, hac, hae⟩ :=
    autosaveNote_proj key existing now areq
  have hudbC : (updateNoteDb key existing shareId now ureq).content =
      (updateNote key existing shareId now ureq).content := rfl
  have hudbE : (updateNoteDb key existing shareId now ureq).encrypted_content =
      (updateNote key existing shareId now ureq).encrypted_content := rfl
  have hadbC : (autosaveNoteDb key existing now areq).content =
      (autosaveNote key existing now areq).content := rfl
  have hadbE : (autosaveNoteDb key existing now areq).encrypted_content =
      (autosaveNote key existing now areq).encrypted_content := rfl
  refine ⟨⟨?_, ?_⟩, fun c hc => ⟨?_, ?_⟩, fun hc => ⟨?_, ?_⟩, fun c hc => ?_⟩
  · unfold exclusiveContent
    rw [hcc, hce]
    split <;> simp
  · rw [hce]
    split <;> simp_all
  · unfold exclusiveContent
    rw [hudbC, hudbE, huc, hue, hc]
    (repeat' split) <;> simp_all
  · rw [hudbE, hue, hc]
    (repeat' split) <;> simp_all
  · rw [hudbC, huc, hc]
  · rw [hudbE, hue, hc]
  · rw [hc] at hac hae
    cases he : existing.is_encrypted <;>
      simp_all [hadbC, hadbE]

/-- Concrete instantiation of `content_ciphertext_exclusivity`: autosaving
content onto an encrypted note. -/
theorem content_ciphertext_exclusivity_witness :
    (autosaveNoteDb [7] demoEncNote 9 { content := some "x" }).content = none ∧
    (autosaveNoteDb [7] demoEncNote 9 { content := some "x" }).encrypted_content =
      some (encryptText [7] "x") := by
  have h := (content_ciphertext_exclusivity [7] 0 1 "s" 9 demoEncNote
      { title := "A" } { } { content := some "x" }).2.2.2 "x" rfl
  simpa [demoEncNote, demoNote] using h

/-! ### C2: publicness, share id and draft flag -/

/-- Create request of the C2 counterexample: public and explicitly draft. -/
def publicDraftCreateReq : CreateReq :=
  { title := "A", is_public := some true, is_draft := some true }

/-- C2 counterexample: a note created with `is_public = true` and
`is_draft = true` is reachable and keeps `is_draft = true`, so
`is_public = true` does not imply `is_draft = false`. -/
theorem public_note_can_stay_draft :
    createNote [] 0 1 "abc" 0 publicDraftCreateReq ∈
      runOps [] 0 [Op.create 1 "abc" 0 publicDraftCreateReq] ∧
    (createNote [] 0 1 "abc" 0 publicDraftCreateReq).is_public = true ∧
    (createNote [] 0 1 "abc" 0 publicDraftCreateReq).is_draft = true := by
  refine ⟨?_, by decide, by decide⟩
  simp [runOps, applyOp]

/-- A non-falsy nullable string is non-null. -/
theorem optStrFalsy_false_ne_none (o : Option String) (h : optStrFalsy o = false) :
    o ≠ none := by
  cases o <;> simp_all [optStrFalsy]

/-- A freshly created public note carries a share id. -/
theorem createNote_pub_share (key : List Nat) (userId freshId : Nat)
    (shareId : String) (now : Nat) (req : CreateReq) :
    (createNote key userId freshId shareId now req).is_public = true →
    (createNote key userId freshId shareId now req).public_share_id ≠ none := by
  obtain ⟨-, -, -, -, -, -, -, -, hip, -, -, -, hsh, -⟩ :=
    createNote_proj key userId freshId shareId now req
  rw [hip, hsh]
  intro hp
  simp [hp]

/-- The update route preserves the share-id guarantee of a row. -/
theorem updateNoteDb_pub_share (key : List Nat) (m : Note) (shareId : String)
    (now : Nat) (req : UpdateReq)
    (h : m.is_public = true → m.public_share_id ≠ none) :
    (updateNoteDb key m shareId now req).is_public = true →
    (updateNoteDb key m shareId now req).public_share_id ≠ none := by
  obtain ⟨-, -, -, -, -, -, -, -, hip, -, -, -, hsh, -⟩ :=
    updateNote_proj key m shareId now req
  have h1 : (updateNoteDb key m shareId now req).is_public =
      (updateNote key m shareId now req).is_public := rfl
  have h2 : (updateNoteDb key m shareId now req).public_share_id =
      (updateNote key m shareId now req).public_share_id := rfl
  rw [h1, h2, hip, hsh]
  intro hp
  split_ifs with hc1 hc2
  · simp
  · rw [hc2] at hp
    simp at hp
  · rcases hq : req.is_public with _ | b
    · rw [hq] at hp
      simp only [Option.getD_none] at hp
      exact h hp
    · cases b
      · exact absurd hq hc2
      · rcases hf : optStrFalsy m.public_share_id with _ | _
        · exact optStrFalsy_false_ne_none _ hf
        · exact absurd ⟨hq, hf⟩ hc1

/-- The autosave route preserves the share-id guarantee of a row. -/
theorem autosaveNoteDb_pub_share (key : List Nat) (m : Note) (now : Nat)
    (req : AutosaveReq)
    (h : m.is_public = true → m.public_share_id ≠ none) :
    (autosaveNoteDb key m now req).is_public = true →
    (autosaveNoteDb key m now req).public_share_id ≠ none := by
  obtain ⟨-, -, -, -, -, -, -, -, hip, -, hsh, -, -, -⟩ :=
    autosaveNote_proj key m now req
  have h1 : (autosaveNoteDb key m now req).is_public =
      (autosaveNote key m now req).is_public := rfl
  have h2 : (autosaveNoteDb key m now req).public_share_id =
      (autosaveNote key m now req).public_share_id := rfl
  rw [h1, h2, hip, hsh]
  exact h

/-- The share-id guarantee is preserved by any sequence of requests. -/
theorem foldl_applyOp_pub_share (key : List Nat) (userId : Nat) (ops : List Op)
    (st : List Note)
    (h : ∀ n ∈ st, n.is_public = true → n.public_share_id ≠ none) :
    ∀ n ∈ List.foldl (applyOp key userId) st ops,
      n.is_public = true → n.public_share_id ≠ none := by
  induction ops generalizing st with
  | nil => simpa using h
  | cons op ops ih =>
    rw [List.foldl_cons]
    refine ih _ ?_
    intro n hn
    cases op with
    | create freshId shareId now req =>
      simp only [applyOp, List.mem_cons] at hn
      rcases hn with rfl | hmem
      · exact createNote_pub_share key userId freshId shareId now req
      · exact h n hmem
    | update id shareId now req =>
      simp only [applyOp] at hn
      rcases hl : lookupNote st userId id with _ | m0
      · rw [hl] at hn
        exact h n hn
      · rw [hl] at hn
        obtain ⟨m, hm, rfl⟩ := List.mem_map.mp hn
        split
        · exact updateNoteDb_pub_share key m shareId now req (h m hm)
        · exact h m hm
    | autosave id now req =>
      simp only [applyOp] at hn
      rcases hl : lookupNote st userId id with _ | m0
      · rw [hl] at hn
        exact h n hn
      · rw [hl] at hn
        obtain ⟨m, hm, rfl⟩ := List.mem_map.mp hn
        split
        · exact autosaveNoteDb_pub_share key m now req (h m hm)
        · exact h m hm

/-- C2 (amended): every note reachable by any sequence of create, update and
autosave requests satisfies: `is_public = true` implies a non-null
`public_share_id`. The second half of the original claim fails: the draft
flag is not constrained by publicness (see the counterexample). -/
theorem reachable_public_has_share_id (key : List Nat) (userId : Nat)
    (ops : List Op) (n : Note) (hmem : n ∈ runOps key userId ops)
    (hpub : n.is_public = true) :
    n.public_share_id ≠ none :=
  foldl_applyOp_pub_share key userId ops [] (by simp) n hmem hpub

/-- Concrete instantiation of `reachable_public_has_share_id`. -/
theorem reachable_public_has_share_id_witness :
    (createNote [] 0 1 "abc" 0 publicDraftCreateReq).public_share_id ≠ none :=
  reachable_public_has_share_id [] 0 [Op.create 1 "abc" 0 publicDraftCreateReq]
    (createNote [] 0 1 "abc" 0 publicDraftCreateReq)
    (by simp [runOps, applyOp]) (by decide)

/-! ### C4: published_at is stamped on draft-to-published transitions -/

/-- A sample already-published note. -/
def publishedDemoNote : Note :=
  { demoNote with is_draft := false, published_at := some 3 }

/-- C4: the update route stamps `published_at` exactly when the request sets
`is_draft = false` while the stored note has `is_draft = true`; in every
other case the stored value is kept, and a non-null `published_at` is never
set back to null by an update (including one that sets `is_draft` back to
true). -/
theorem published_at_update_monotonic (key : List Nat) (existing : Note)
    (shareId : String) (now : Nat) (req : UpdateReq) :
    (updateNoteDb key existing shareId now req).published_at =
      (if req.is_draft = some false ∧ existing.is_draft = true then some now
       else existing.published_at) ∧
    (existing.published_at ≠ none →
      (updateNoteDb key existing shareId now req).published_at ≠ none) := by
  obtain ⟨-, -, -, -, -, -, -, -, -, -, -, -, -, hp⟩ :=
    updateNote_proj key existing shareId now req
  have hdb : (updateNoteDb key existing shareId now req).published_at =
      (updateNote key existing shareId now req).published_at := rfl
  rw [hdb, hp]
  refine ⟨rfl, fun hne => ?_⟩
  split
  · simp
  · exact hne

/-- Concrete instantiation of `published_at_update_monotonic`: setting
`is_draft` back to true on a published note keeps `published_at`. -/
theorem published_at_update_monotonic_witness :
    (updateNoteDb [7] publishedDemoNote "s" 9 { is_draft := some true }).published_at ≠
      none :=
  (published_at_update_monotonic [7] publishedDemoNote "s" 9
    { is_draft := some true }).2 (by simp [publishedDemoNote, demoNote])

/-! ### C5: tag assignment replaces the set -/

/-- Rows surviving the delete step carry another note id, so none of them
matches the note. -/
theorem filter_clear_then_match (noteId : Nat) (rows : List (Nat × Nat)) :
    (rows.filter fun r => r.1 != noteId).filter (fun r => r.1 == noteId) = [] := by
  induction rows with
  | nil => rfl
  | cons r rs ih =>
    by_cases h : r.1 = noteId <;> simp [List.filter_cons, h, ih]

/-- Every inserted row matches the note. -/
theorem filter_match_of_inserted (noteId : Nat) (tagIds : List Nat) :
    (tagIds.map fun t => (noteId, t)).filter (fun r => r.1 == noteId) =
      tagIds.map fun t => (noteId, t) := by
  induction tagIds with
  | nil => rfl
  | cons t ts ih => simp [List.filter_cons, ih]

/-- No inserted row survives a later delete step for the same note. -/
theorem filter_clear_of_inserted (noteId : Nat) (tagIds : List Nat) :
    (tagIds.map fun t => (noteId, t)).filter (fun r => r.1 != noteId) = [] := by
  induction tagIds with
  | nil => rfl
  | cons t ts ih => simp [List.filter_cons, ih]

/-- The delete step is idempotent. -/
theorem filter_clear_idem (noteId : Nat) (rows : List (Nat × Nat)) :
    (rows.filter fun r => r.1 != noteId).filter (fun r => r.1 != noteId) =
      rows.filter fun r => r.1 != noteId := by
  induction rows with
  | nil => rfl
  | cons r rs ih =>
    by_cases h : r.1 = noteId <;> simp [List.filter_cons, h, ih]

/-- C5: assigning a duplicate-free set of tag ids to an owned note replaces
the note's assignment rows of that kind with exactly one row per id — the
empty set leaves zero rows — without touching other notes' rows, no
duplicate rows arise, and repeating the same call leaves the rows unchanged
(idempotent); a missed owner-scoped lookup fails NotFound instead. -/
theorem assign_replaces_tag_set (st : List Note) (rows : List (Nat × Nat))
    (userId noteId : Nat) (tagIds : List Nat) (note : Note)
    (hnote : lookupNote st userId noteId = some note) (hnd : tagIds.Nodup) :
    assignTagsRoute st rows userId noteId tagIds =
      .ok (assignTagRows rows noteId tagIds) ∧
    (assignTagRows rows noteId tagIds).filter (fun r => r.1 == noteId) =
      tagIds.map (fun t => (noteId, t)) ∧
    ((assignTagRows rows noteId tagIds).filter (fun r => r.1 == noteId)).Nodup ∧
    (assignTagRows rows noteId tagIds).filter (fun r => r.1 != noteId) =
      rows.filter (fun r => r.1 != noteId) ∧
    assignTagRows (assignTagRows rows noteId tagIds) noteId tagIds =
      assignTagRows rows noteId tagIds := by
  have hmatch : (assignTagRows rows noteId tagIds).filter (fun r => r.1 == noteId) =
      tagIds.map (fun t => (noteId, t)) := by
    unfold assignTagRows
    rw [List.filter_append, filter_clear_then_match, filter_match_of_inserted,
      List.nil_append]
  refine ⟨by simp [assignTagsRoute, hnote], hmatch, ?_, ?_, ?_⟩
  · rw [hmatch]
    exact hnd.map fun a b hab => by simpa using hab
  · unfold assignTagRows
    rw [List.filter_append, filter_clear_idem, filter_clear_of_inserted,
      List.append_nil]
  · unfold assignTagRows
    rw [List.filter_append, filter_clear_idem, filter_clear_of_inserted,
      List.append_nil]

/-- Concrete instantiation of `assign_replaces_tag_set`: assigning the empty
set after a prior assignment of `[1, 2, 3]` leaves zero rows for the note. -/
theorem assign_replaces_tag_set_witness :
    (assignTagRows (assignTagRows [] 1 [1, 2, 3]) 1 []).filter
      (fun r => r.1 == 1) = [] :=
  (assign_replaces_tag_set [demoNote] (assignTagRows [] 1 [1, 2, 3]) 0 1 []
    demoNote (by decide) (by decide)).2.1

/-! ### C6: the autosave frame -/

/-- C6 counterexample: the `update_notes_updated_at` trigger fires on the
autosave UPDATE, so an autosave also changes `updated_at`, a field outside
title, the content pair and `auto_saved_at`. -/
theorem autosave_changes_updated_at :
    demoNote.updated_at = 0 ∧
    (autosaveNoteDb [7] demoNote 9 { content := some "x" }).updated_at = 9 := by
  decide

/-- C6 (amended): autosave stamps `auto_saved_at`, rewrites the title and
the content pair only when supplied — content stored encrypted or plain
following the stored `is_encrypted` flag, never re-negotiated — leaves
`is_encrypted`, `is_public`, `is_draft`, `public_share_id`, `published_at`,
`tags`, `created_at`, the owner and the id unchanged, while the table's
BEFORE UPDATE trigger additionally refreshes `updated_at`; it fails
NotFound when the owner-scoped lookup misses. -/
theorem autosave_frame (key : List Nat) (st : List Note) (userId id now : Nat)
    (req : AutosaveReq) (existing : Note) :
    (lookupNote st userId id = none →
      autosaveRoute key st userId id now req = .error .notFound) ∧
    (autosaveNoteDb key existing now req).is_encrypted = existing.is_encrypted ∧
    (autosaveNoteDb key existing now req).is_public = existing.is_public ∧
    (autosaveNoteDb key existing now req).is_draft = existing.is_draft ∧
    (autosaveNoteDb key existing now req).public_share_id =
      existing.public_share_id ∧
    (autosaveNoteDb key existing now req).published_at = existing.published_at ∧
    (autosaveNoteDb key existing now req).tags = existing.tags ∧
    (autosaveNoteDb key existing now req).created_at = existing.created_at ∧
    (autosaveNoteDb key existing now req).id = existing.id ∧
    (autosaveNoteDb key existing now req).user_id = existing.user_id ∧
    (autosaveNoteDb key existing now req).auto_saved_at = some now ∧
    (autosaveNoteDb key existing now req).updated_at = now ∧
    (autosaveNoteDb key existing now req).title = req.title.getD existing.title ∧
    (req.content = none →
      (autosaveNoteDb key existing now req).content = existing.content ∧
      (autosaveNoteDb key existing now req).encrypted_content =
        existing.encrypted_content) ∧
    (∀ c, req.content = some c →
      if existing.is_encrypted then
        (autosaveNoteDb key existing now req).content = none ∧
        (autosaveNoteDb key existing now req).encrypted_content =
          some (encryptText key c)
      else
        (autosaveNoteDb key existing now req).content = some c ∧
        (autosaveNoteDb key existing now req).encrypted_content =
          existing.encrypted_content) := by
  obtain ⟨hid, huid, htit, htg, hcr, -, hauto, hieq, hipq, hidr, hshq, hpbq, hac, hae⟩ :=
    autosaveNote_proj key existing now req
  have hdbc : (autosaveNoteDb key existing now req).content =
      (autosaveNote key existing now req).content := rfl
  have hdbe : (autosaveNoteDb key existing now req).encrypted_content =
      (autosaveNote key existing now req).encrypted_content := rfl
  refine ⟨fun h => by simp [autosaveRoute, h], hieq, hipq, hidr, hshq, hpbq, htg,
    hcr, hid, huid, hauto, rfl, htit, fun hc => ?_, fun c hc => ?_⟩
  · rw [hc] at hac hae
    exact ⟨hdbc.trans hac, hdbe.trans hae⟩
  · rw [hc] at hac hae
    cases he : existing.is_encrypted <;> simp_all

/-- Concrete instantiation of `autosave_frame`: a missing note fails
NotFound, and autosaving content onto an encrypted note keeps its flag. -/
theorem autosave_frame_witness :
    autosaveRoute [7] [] 0 1 9 { content := some "x" } = .error .notFound ∧
    (autosaveNoteDb [7] demoEncNote 9 { content := some "x" }).is_encrypted =
      demoEncNote.is_encrypted :=
  ⟨(autosave_frame [7] [] 0 1 9 { content := some "x" } demoEncNote).1 rfl,
   (autosave_frame [7] [] 0 1 9 { content := some "x" } demoEncNote).2.1⟩

/-! ### C7: the count query and the page query -/

/-- A note created before the date window of the C7 counterexample. -/
def earlyNote : Note := { demoNote with id := 1, created_at := 5 }

/-- A note created inside the date window of the C7 counterexample. -/
def lateNote : Note := { demoNote with id := 2, created_at := 10 }

/-- List request with a `date_from` filter. -/
def dateFilteredParams : ListParams := { date_from := some 8 }

/-- C7 counterexample: with `date_from = 8`, exactly one of the two stored
notes matches the page query's filters, yet the reported total is 2 — the
count query does not apply the date-range filter. -/
theorem count_ignores_date_range :
    ([lateNote, earlyNote].filter (matchesMainQuery 0 dateFilteredParams)).length = 1 ∧
    (listNotes [lateNote, earlyNote] 0 dateFilteredParams).pagination.total = 2 := by
  decide

/-- C7 (amended): the reported total equals the number of notes matching the
owner, draft, visibility, search and tag filters — the date-range filter is
not applied to the count query — and `hasNext`/`hasPrev` are derived from
that count and the page number; whenever no date bound is requested, the
total therefore matches exactly the page query's filters. -/
theorem list_total_counts_count_filters (st : List Note) (userId : Nat)
    (p : ListParams) :
    (listNotes st userId p).pagination.total =
      (st.filter (matchesCountQuery userId p)).length ∧
    (listNotes st userId p).pagination.hasNext =
      decide (p.page * parsedLimit p.limit <
        (st.filter (matchesCountQuery userId p)).length) ∧
    (listNotes st userId p).pagination.hasPrev = decide (1 < p.page) ∧
    (p.date_from = none → p.date_to = none →
      (listNotes st userId p).pagination.total =
        (st.filter (matchesMainQuery userId p)).length) := by
  refine ⟨rfl, rfl, rfl, fun h1 h2 => ?_⟩
  have hpt : ∀ n, matchesMainQuery userId p n = matchesCountQuery userId p n := by
    intro n
    simp [matchesMainQuery, dateFilter, h1, h2]
  have hcong : st.filter (matchesMainQuery userId p) =
      st.filter (matchesCountQuery userId p) :=
    List.filter_congr fun n _ => hpt n
  have htot : (listNotes st userId p).pagination.total =
      (st.filter (matchesCountQuery userId p)).length := rfl
  rw [htot, hcong]

/-- Concrete instantiation of `list_total_counts_count_filters` with no date
bounds. -/
theorem list_total_counts_count_filters_witness :
    (listNotes [demoNote] 0 {}).pagination.total =
      ([demoNote].filter (matchesMainQuery 0 {})).length :=
  (list_total_counts_count_filters [demoNote] 0 {}).2.2.2 rfl rfl

end MockNotes
